import Mathlib

/-!
Shallow embedding of the Open-Meteo weather-dashboard CLI (`main.py`):
a geocoding step, a current-weather fetch, an optional daily-forecast
fetch, text rendering, and a top-level orchestrator that converts every
failure into a one-line message.

Python floats are modelled as rationals (`Rat`), JSON dictionaries as
structures with `Option` fields for the keys the code accesses with
`.get`, and the HTTP layer as an oracle value (`NetResult`) holding
either a status code plus decoded body or a transport failure.
Printing is modelled as returning the list of printed lines.
-/

/-- Static weather-code table `WEATHER_CODE_MAP` from `main.py`. -/
def WEATHER_CODE_MAP : List (Int × String) :=
  [(0, "Clear sky"),
   (1, "Mainly clear"), (2, "Partly cloudy"), (3, "Overcast"),
   (45, "Fog"), (48, "Depositing rime fog"),
   (51, "Light drizzle"), (53, "Moderate drizzle"), (55, "Dense drizzle"),
   (56, "Light freezing drizzle"), (57, "Dense freezing drizzle"),
   (61, "Slight rain"), (63, "Moderate rain"), (65, "Heavy rain"),
   (66, "Light freezing rain"), (67, "Heavy freezing rain"),
   (71, "Slight snow"), (73, "Moderate snow"), (75, "Heavy snow"),
   (77, "Snow grains"),
   (80, "Slight rain showers"), (81, "Moderate rain showers"),
   (82, "Violent rain showers"),
   (85, "Slight snow showers"), (86, "Heavy snow showers"),
   (95, "Thunderstorm"), (96, "Thunderstorm (slight hail)"),
   (99, "Thunderstorm (heavy hail)")]

/-- Errors raised inside the session body (`try` block of `main`),
one constructor per `except` clause of `main.py`. `httpError` carries
the HTTP status from `raise_for_status`. -/
inductive PyError where
  | httpError (status : Nat)
  | connectionError
  | timeoutError
  | valueError (msg : String)
  | keyboardInterrupt
  | unexpected (msg : String)
deriving Repr, DecidableEq

/-- Outcome of one `requests.get` call: a status code with the decoded
JSON body, or a transport failure. -/
inductive NetResult (β : Type) where
  | ok (status : Nat) (body : β)
  | connFail
  | timeoutFail
deriving Repr, DecidableEq

/-- `requests.get(...)` followed by `r.raise_for_status()` and
`r.json()`: statuses ≥ 400 raise `HTTPError`, transport failures raise
`ConnectionError` / `Timeout`. -/
def httpGet {β : Type} : NetResult β → Except PyError β
  | .ok status body =>
      if status ≥ 400 then .error (.httpError status) else .ok body
  | .connFail => .error .connectionError
  | .timeoutFail => .error .timeoutError

/-- One entry of the geocoding response's `results` array; the fields
the code reads, optional when accessed via `.get`. -/
structure GeoEntry where
  latitude : Rat
  longitude : Rat
  name : Option String
  admin1 : Option String
  country_code : Option String
deriving Repr, DecidableEq

/-- Decoded JSON body of the geocoding endpoint. -/
structure GeoResponse where
  results : Option (List GeoEntry)
deriving Repr, DecidableEq

/-- Python truthiness of an optional string: `None` and `""` are falsy. -/
def optStrTruthy : Option String → Bool
  | some s => s ≠ ""
  | none => false

/-- Python `f"{x}"` on an optional value: `None` prints as `"None"`. -/
def pyShowOptStr : Option String → String
  | some s => s
  | none => "None"

namespace WeatherApp

/-- `WeatherApp.geocode_city`: fetch the geocoding endpoint, take the
first result, build the display name (`", admin1"` appended when that
field is truthy), and return `(lat, lon, name, country_code)`; raise
`ValueError` when the result list is empty or absent. -/
def geocode_city (city : String) (net : NetResult GeoResponse) :
    Except PyError (Rat × Rat × String × Option String) := do
  let data ← httpGet net
  let results := data.results.getD []
  match results with
  | [] => .error (.valueError ("City '" ++ city ++ "' not found."))
  | top :: _ =>
      let name := pyShowOptStr top.name
      let name :=
        match top.admin1 with
        | some a => if a ≠ "" then name ++ ", " ++ a else name
        | none => name
      .ok (top.latitude, top.longitude, name, top.country_code)

/-- `WeatherApp.describe_code`: table lookup with fallback
`f"Code {code}"`. -/
def describe_code (code : Int) : String :=
  match WEATHER_CODE_MAP.lookup code with
  | some s => s
  | none => "Code " ++ toString code

end WeatherApp

/-- The `current_weather` object of the weather endpoint's JSON; the
fields `print_current` reads with `.get` are optional. -/
structure CurrentWeather where
  temperature : Option Rat
  windspeed : Option Rat
  weathercode : Option Int
deriving Repr, DecidableEq

/-- Decoded JSON body of the current-weather request. -/
structure CurrentResp where
  current_weather : Option CurrentWeather
deriving Repr, DecidableEq

/-- The `daily` object of the forecast response: seven parallel arrays,
each read by `print_forecast` with `.get(key, [])`. -/
structure Daily where
  time : Option (List String)
  weathercode : Option (List Int)
  temperature_2m_max : Option (List Rat)
  temperature_2m_min : Option (List Rat)
  precipitation_sum : Option (List Rat)
  windspeed_10m_max : Option (List Rat)
  winddirection_10m_dominant : Option (List Int)
deriving Repr, DecidableEq

/-- Decoded JSON body of the daily-forecast request. -/
structure ForecastResp where
  daily : Option Daily
deriving Repr, DecidableEq

namespace WeatherApp

/-- `WeatherApp.get_current_weather`: fetch the weather endpoint and
return the `current_weather` object; raise `ValueError` when that key
is missing from the payload. -/
def get_current_weather (lat lon : Rat) (net : NetResult CurrentResp) :
    Except PyError CurrentWeather := do
  let data ← httpGet net
  match data.current_weather with
  | none => .error (.valueError "Weather data missing from API response.")
  | some cw => .ok cw

/-- `WeatherApp.get_daily_forecast`: reject `days` outside 1..16 with
`ValueError` before any network step; otherwise fetch and return the
`daily` object, raising `ValueError` when it is missing. The second
component instruments the control flow: it is `true` exactly when the
HTTP request was issued. -/
def get_daily_forecast (lat lon : Rat) (days : Int)
    (net : NetResult ForecastResp) : Except PyError Daily × Bool :=
  if days < 1 ∨ days > 16 then
    (.error (.valueError "Forecast days must be between 1 and 16."), false)
  else
    match httpGet net with
    | .error e => (.error e, true)
    | .ok data =>
        match data.daily with
        | none => (.error (.valueError "Daily forecast missing from API response."), true)
        | some d => (.ok d, true)

end WeatherApp

/-- Left-pad with spaces to width `w`: Python's `>` string alignment
(no-op when the string is already at least `w` long). -/
def padLeft (s : String) (w : Nat) : String :=
  String.mk (List.replicate (w - s.length) ' ') ++ s

/-- Right-pad with spaces to width `w`: Python's default (left)
alignment for strings, as in `f"{desc:28}"`. -/
def padRight (s : String) (w : Nat) : String :=
  s ++ String.mk (List.replicate (w - s.length) ' ')

/-- Decimal digits of `n`, zero-padded on the left to length `d`. -/
def zeroPad (n : Nat) (d : Nat) : String :=
  String.mk (List.replicate (d - (toString n).length) '0') ++ toString n

/-- Python fixed-point formatting `f"{q:.df}"` on a rational: round to
`d` decimal places and print with exactly `d` fractional digits (no
decimal point at all when `d = 0`). -/
def fmtFixed (d : Nat) (q : Rat) : String :=
  let n : Int := round (q * (10 : Rat) ^ d)
  let sign := if n < 0 then "-" else ""
  if d = 0 then sign ++ toString n.natAbs
  else
    sign ++ toString (n.natAbs / 10 ^ d) ++ "." ++
      zeroPad (n.natAbs % 10 ^ d) d

/-- Python `str` of a float, modelled on rationals: values with a
finite decimal expansion print in fixed-point form (integral values as
`x.0`); other rationals fall back to the raw rational rendering. -/
def pyFloatStr (q : Rat) : String :=
  if q.den = 1 then
    (if q.num < 0 then "-" else "") ++ toString q.num.natAbs ++ ".0"
  else
    match (List.range 17).find?
        (fun k => (q * (10 : Rat) ^ (k + 1)).den == 1) with
    | some k =>
        let d := k + 1
        let n := (q * (10 : Rat) ^ d).num
        (if n < 0 then "-" else "") ++ toString (n.natAbs / 10 ^ d) ++
          "." ++ zeroPad (n.natAbs % 10 ^ d) d
    | none => toString q

/-- Python `f"{x}"` on an optional number: `None` prints as `"None"`. -/
def pyShowOptRat : Option Rat → String
  | some q => pyFloatStr q
  | none => "None"

/-- `pat` occurs as a contiguous substring of `s`. -/
def strContains (s pat : String) : Prop :=
  pat.data <:+: s.data

namespace WeatherApp

/-- `WeatherApp.print_current`: the lines printed for the
current-weather block (`print("\n— Current Weather —")` is the empty
line followed by the header). A missing `weathercode` key defaults to
`-999`; missing `temperature`/`windspeed` print as `None`. -/
def print_current (city_label : String) (lat lon : Rat)
    (cw : CurrentWeather) : List String :=
  let temp := cw.temperature
  let wind := cw.windspeed
  let wcode := cw.weathercode.getD (-999)
  let desc := describe_code wcode
  ["",
   "— Current Weather —",
   "Location   : " ++ city_label,
   "Latitude   : " ++ fmtFixed 4 lat ++ ", Longitude: " ++
     fmtFixed 4 lon,
   "Temperature: " ++ pyShowOptRat temp ++ " °C",
   "Windspeed  : " ++ pyShowOptRat wind ++ " km/h",
   "Condition  : " ++ desc]

/-- The per-day lines of `WeatherApp.print_forecast`: one line per
index of the `time` array. Python indexing `codes[i]` etc. raises
`IndexError` past the end of a shorter array; the embedding reads a
default there (the claims below only concern equal-length arrays,
where every access is in range). -/
def forecastLines (daily : Daily) : List String :=
  let dates := daily.time.getD []
  let codes := daily.weathercode.getD []
  let tmax := daily.temperature_2m_max.getD []
  let tmin := daily.temperature_2m_min.getD []
  let psum := daily.precipitation_sum.getD []
  let wmax := daily.windspeed_10m_max.getD []
  let wdir := daily.winddirection_10m_dominant.getD []
  (List.range dates.length).map (fun i =>
    dates.getD i "" ++ " | " ++
    padRight (describe_code (codes.getD i 0)) 28 ++ " | " ++
    "min " ++ padLeft (fmtFixed 1 (tmin.getD i 0)) 5 ++ "°C  max " ++
    padLeft (fmtFixed 1 (tmax.getD i 0)) 5 ++ "°C  " ++
    "prec " ++ padLeft (fmtFixed 1 (psum.getD i 0)) 4 ++
    " mm  wind " ++ padLeft (fmtFixed 0 (wmax.getD i 0)) 4 ++
    " km/h dir " ++ padLeft (toString (wdir.getD i 0)) 3 ++ "°")

/-- `WeatherApp.print_forecast`: the header (empty line plus title)
followed by one formatted line per day. -/
def print_forecast (daily : Daily) : List String :=
  "" :: "— Daily Forecast —" :: forecastLines daily

end WeatherApp

/-- Value of a non-empty all-digit character run, else `none`. -/
def digitsVal (l : List Char) : Option Nat :=
  if l ≠ [] ∧ l.all Char.isDigit then
    some (l.foldl (fun a c => a * 10 + (c.toNat - 48)) 0)
  else none

/-- Python `int(s)` on an already-stripped string: an optional sign
followed by at least one decimal digit; anything else raises
`ValueError` (modelled as `none`). -/
def pyInt (s : String) : Option Int :=
  match s.data with
  | '-' :: rest => (digitsVal rest).map (fun n => -(n : Int))
  | '+' :: rest => (digitsVal rest).map (fun n => (n : Int))
  | l => (digitsVal l).map (fun n => (n : Int))

/-- Python `str.strip()`: drop leading and trailing whitespace. -/
def pyStrip (s : String) : String :=
  String.mk (((s.data.dropWhile Char.isWhitespace).reverse.dropWhile
    Char.isWhitespace).reverse)

/-- `ask_forecast_days_interactively`, driven by the finite list of
strings the user will type: returns the warning lines printed by the
retry loop together with the accepted day count. Empty (stripped)
input defaults to `"0"`; `none` models the input stream running dry,
which in Python raises `EOFError` out of `input()`. -/
def ask_forecast_days_interactively :
    List String → List String × Option Int
  | [] => ([], none)
  | s :: rest =>
      match pyInt (if pyStrip s = "" then "0" else pyStrip s) with
      | some d =>
          if 0 ≤ d ∧ d ≤ 16 then ([], some d)
          else
            ("Please enter an integer between 0 and 16." ::
               (ask_forecast_days_interactively rest).1,
             (ask_forecast_days_interactively rest).2)
      | none =>
          ("Please enter an integer between 0 and 16." ::
             (ask_forecast_days_interactively rest).1,
           (ask_forecast_days_interactively rest).2)

/-- The orchestrator's location label:
`resolved if not cc else f"{resolved} ({cc})"`. -/
def cityLabel (resolved : String) (cc : Option String) : String :=
  if optStrTruthy cc then resolved ++ " (" ++ cc.getD "" ++ ")"
  else resolved

/-- One session's environment: the CLI arguments, the interactive
inputs available, and the oracle outcomes of the three HTTP
requests. -/
structure Inputs where
  cityArg : Option String
  promptCity : String
  forecastArg : Option Int
  promptDays : List String
  geoNet : NetResult GeoResponse
  currentNet : NetResult CurrentResp
  forecastNet : NetResult ForecastResp
deriving Repr, DecidableEq

/-- The `except` clauses of `main`: each taxonomy member prints one
diagnostic (`print("\nCancelled.")` is an empty line followed by the
text). -/
def handleError : PyError → List String
  | .httpError status => ["HTTP error from API: " ++ toString status]
  | .connectionError =>
      ["Network error: please check your internet connection."]
  | .timeoutError => ["Request timed out. Try again."]
  | .valueError m => ["Error: " ++ m]
  | .keyboardInterrupt => ["", "Cancelled."]
  | .unexpected m => ["Unexpected error: " ++ m]

/-- The `try`-block steps of `main` from geocoding onward: the lines
printed before any failure, whether the current-weather request was
issued, whether a forecast HTTP request was issued, and the failure
(if any) escaping to the `except` clauses. -/
def sessionBody (inp : Inputs) (city_input : String)
    (forecast_days : Int) :
    List String × Bool × Bool × Option PyError :=
  match WeatherApp.geocode_city city_input inp.geoNet with
  | .error e => ([], false, false, some e)
  | .ok (lat, lon, resolved, cc) =>
      let city_label := cityLabel resolved cc
      match WeatherApp.get_current_weather lat lon inp.currentNet with
      | .error e => ([], true, false, some e)
      | .ok cw =>
          let cur := WeatherApp.print_current city_label lat lon cw
          if forecast_days > 0 then
            match WeatherApp.get_daily_forecast lat lon forecast_days
                inp.forecastNet with
            | (.error e, called) => (cur, true, called, some e)
            | (.ok daily, called) =>
                (cur ++ WeatherApp.print_forecast daily, true, called,
                 none)
          else (cur, true, false, none)

/-- `try` body plus exception conversion: the session's output lines
from geocoding onward together with the two request flags. -/
def sessionRun (inp : Inputs) (city_input : String)
    (forecast_days : Int) : List String × Bool × Bool :=
  match sessionBody inp city_input forecast_days with
  | (ls, cf, ff, some e) => (ls ++ handleError e, cf, ff)
  | (ls, cf, ff, none) => (ls, cf, ff)

/-- Outcome of the forecast-day acquisition step of `main`. -/
inductive DaysAcq where
  | earlyExit (lines : List String)
  | failed (lines : List String) (e : PyError)
  | got (lines : List String) (days : Int)
deriving Repr, DecidableEq

/-- `main`'s forecast-day step: a provided CLI value is range-checked
(out of range prints the error and returns normally), otherwise the
interactive loop runs; exhausting the scripted inputs is the
`EOFError` out of `input()`, caught by the catch-all clause. -/
def acquireDays (inp : Inputs) : DaysAcq :=
  match inp.forecastArg with
  | some n =>
      if 0 ≤ n ∧ n ≤ 16 then .got [] n
      else .earlyExit ["Error: --forecast must be between 0 and 16."]
  | none =>
      match ask_forecast_days_interactively inp.promptDays with
      | (ls, some d) => .got ls d
      | (ls, none) => .failed ls (.unexpected "EOF when reading a line")

/-- Full trace of one `main` run: the printed lines and whether the
current-weather / forecast HTTP requests were issued. -/
structure MainTrace where
  output : List String
  currentFetched : Bool
  forecastFetched : Bool
deriving Repr, DecidableEq

namespace Orchestrator

/-- `main`: acquire the city (the CLI value when truthy, else the
prompt; an empty prompted city ends the session), acquire the
forecast-day count, then run the pipeline with every failure
converted by the `except` clauses. -/
def main (inp : Inputs) : MainTrace :=
  let cityStep : Option String :=
    if optStrTruthy inp.cityArg then some (pyStrip (inp.cityArg.getD ""))
    else if pyStrip inp.promptCity = "" then none
    else some (pyStrip inp.promptCity)
  match cityStep with
  | none => ⟨["No city entered. Exiting."], false, false⟩
  | some city_input =>
      match acquireDays inp with
      | .earlyExit ls => ⟨ls, false, false⟩
      | .failed ls e => ⟨ls ++ handleError e, false, false⟩
      | .got ls days =>
          match sessionRun inp city_input days with
          | (out, cf, ff) => ⟨ls ++ out, cf, ff⟩

end Orchestrator

/-- `l.lookup c = some s` only holds for pairs present in `l`. -/
theorem lookup_mem_pairs {l : List (Int × String)} {c : Int} {s : String}
    (h : l.lookup c = some s) : (c, s) ∈ l := by
  induction l with
  | nil => simp [List.lookup] at h
  | cons p t ih =>
      obtain ⟨k, v⟩ := p
      by_cases hk : c = k
      · subst hk
        simp [List.lookup] at h
        simp [h]
      · have hk' : (c == k) = false := by simp [hk]
        simp [List.lookup, hk'] at h
        exact List.mem_cons_of_mem _ (ih h)

/-- C5: `describe_code` is total: every key of the static table maps to
exactly its table string, and every integer absent from the table maps
to `"Code {n}"`. -/
theorem describe_code_spec :
    (∀ c s, (c, s) ∈ WEATHER_CODE_MAP → WeatherApp.describe_code c = s) ∧
    (∀ c : Int, (∀ s, (c, s) ∉ WEATHER_CODE_MAP) →
      WeatherApp.describe_code c = "Code " ++ toString c) := by
  constructor
  · intro c s h
    fin_cases h <;> rfl
  · intro c h
    unfold WeatherApp.describe_code
    cases hl : WEATHER_CODE_MAP.lookup c with
    | none => rfl
    | some s => exact absurd (lookup_mem_pairs hl) (h s)

/-- C5 witness: the theorem applied at code 95 (a table key) and at
code 42 (absent from the table). -/
theorem describe_code_spec_witness :
    WeatherApp.describe_code 95 = "Thunderstorm" ∧
    WeatherApp.describe_code 42 = "Code 42" :=
  ⟨describe_code_spec.1 95 "Thunderstorm" (by decide),
   describe_code_spec.2 42 (by
    intro s h
    simp [WEATHER_CODE_MAP, Prod.ext_iff] at h)⟩

/-- C1 counterexample: an entry whose `admin1` field is present but
equal to `""`. The claim says the display name is then
`"name, admin1"` (here `"X, "`), but `geocode_city` returns just
`"X"`: the code only appends `admin1` when it is truthy. -/
theorem geocode_city_empty_admin1_cex :
    (GeoEntry.admin1 ⟨1, 2, some "X", some "", none⟩).isSome = true ∧
    WeatherApp.geocode_city "X"
      (NetResult.ok 200 ⟨some [⟨1, 2, some "X", some "", none⟩]⟩) =
      .ok (1, 2, "X", none) ∧
    ("X" : String) ≠ "X, " := by
  refine ⟨rfl, rfl, by decide⟩

/-- C1 (amended): on an HTTP-successful geocoding response,
`geocode_city` fails with the not-found `ValueError` when the results
list is empty or absent; on a populated list it returns the first
entry's latitude and longitude and a display name equal to the entry's
name, or to `"name, admin1"` when the `admin1` field is present and
non-empty. -/
theorem geocode_city_spec (city : String) (status : Nat)
    (data : GeoResponse) (hs : status < 400) :
    ((data.results = none ∨ data.results = some []) →
      WeatherApp.geocode_city city (.ok status data) =
        .error (.valueError ("City '" ++ city ++ "' not found."))) ∧
    (∀ top rest nm a, data.results = some (top :: rest) →
      top.name = some nm → top.admin1 = some a → a ≠ "" →
      WeatherApp.geocode_city city (.ok status data) =
        .ok (top.latitude, top.longitude, nm ++ ", " ++ a,
             top.country_code)) ∧
    (∀ top rest nm, data.results = some (top :: rest) →
      top.name = some nm → (top.admin1 = none ∨ top.admin1 = some "") →
      WeatherApp.geocode_city city (.ok status data) =
        .ok (top.latitude, top.longitude, nm, top.country_code)) := by
  have hlt : ¬ (400 ≤ status) := by omega
  refine ⟨?_, ?_, ?_⟩
  · rintro (h | h) <;>
      simp [WeatherApp.geocode_city, httpGet, hlt, h, Bind.bind,
        Except.bind]
  · intro top rest nm a hres hnm ha hne
    simp [WeatherApp.geocode_city, httpGet, hlt, hres, pyShowOptStr,
      hnm, ha, hne, Bind.bind, Except.bind]
  · intro top rest nm hres hnm hcase
    rcases hcase with h | h <;>
      simp [WeatherApp.geocode_city, httpGet, hlt, hres, pyShowOptStr,
        hnm, h, Bind.bind, Except.bind]

/-- C1 witness: the amended theorem applied to the Prague-style
response from the spec's end-to-end scenario 1, and to an empty
response. -/
theorem geocode_city_spec_witness :
    WeatherApp.geocode_city "Prague"
      (NetResult.ok 200
        ⟨some [⟨(50088 : Rat)/1000, (144208 : Rat)/10000, some "Prague",
                some "Prague", some "CZ"⟩]⟩) =
      .ok ((50088 : Rat)/1000, (144208 : Rat)/10000, "Prague, Prague",
           some "CZ") ∧
    WeatherApp.geocode_city "Nowhere" (NetResult.ok 200 ⟨some []⟩) =
      .error (.valueError "City 'Nowhere' not found.") :=
  ⟨by
    have h := (geocode_city_spec "Prague" 200
      ⟨some [⟨(50088 : Rat)/1000, (144208 : Rat)/10000, some "Prague",
              some "Prague", some "CZ"⟩]⟩ (by decide)).2.1
      ⟨(50088 : Rat)/1000, (144208 : Rat)/10000, some "Prague",
       some "Prague", some "CZ"⟩ [] "Prague" "Prague" rfl rfl rfl
      (by decide)
    exact h,
   (geocode_city_spec "Nowhere" 200 _ (by decide)).1 (Or.inr rfl)⟩

/-- C3: on an HTTP-successful response, `get_current_weather` fails
with the malformed-response `ValueError` exactly when the
`current_weather` section is absent; when present, the section is
returned verbatim (temperature, windspeed and weather code
unchanged). -/
theorem get_current_weather_spec (lat lon : Rat) (status : Nat)
    (data : CurrentResp) (hs : status < 400) :
    (data.current_weather = none →
      WeatherApp.get_current_weather lat lon (.ok status data) =
        .error (.valueError "Weather data missing from API response.")) ∧
    (∀ cw, data.current_weather = some cw →
      WeatherApp.get_current_weather lat lon (.ok status data) =
        .ok cw) := by
  have hlt : ¬ (400 ≤ status) := by omega
  constructor
  · intro h
    simp [WeatherApp.get_current_weather, httpGet, hlt, h, Bind.bind,
      Except.bind]
  · intro cw h
    simp [WeatherApp.get_current_weather, httpGet, hlt, h, Bind.bind,
      Except.bind]

/-- C3 witness: the theorem applied to a response missing the section
and to the spec's end-to-end scenario 2 payload. -/
theorem get_current_weather_spec_witness :
    WeatherApp.get_current_weather 0 0 (NetResult.ok 200 ⟨none⟩) =
      .error (.valueError "Weather data missing from API response.") ∧
    WeatherApp.get_current_weather 0 0
      (NetResult.ok 200
        ⟨some ⟨some ((105 : Rat)/10), some ((54 : Rat)/10), some 3⟩⟩) =
      .ok ⟨some ((105 : Rat)/10), some ((54 : Rat)/10), some 3⟩ :=
  ⟨(get_current_weather_spec 0 0 200 _ (by decide)).1 rfl,
   (get_current_weather_spec 0 0 200 _ (by decide)).2 _ rfl⟩

/-- C2: `get_daily_forecast` rejects every day count outside 1..16
with the bad-parameter `ValueError` and issues no network call; for
every day count in 1..16 it issues the network call and never fails
with the bad-parameter error. -/
theorem get_daily_forecast_param_check (lat lon : Rat) (days : Int)
    (net : NetResult ForecastResp) :
    (days < 1 ∨ days > 16 →
      WeatherApp.get_daily_forecast lat lon days net =
        (.error (.valueError "Forecast days must be between 1 and 16."),
         false)) ∧
    (1 ≤ days → days ≤ 16 →
      (WeatherApp.get_daily_forecast lat lon days net).2 = true ∧
      (WeatherApp.get_daily_forecast lat lon days net).1 ≠
        .error
          (.valueError "Forecast days must be between 1 and 16.")) := by
  constructor
  · intro h
    simp [WeatherApp.get_daily_forecast, h]
  · intro h1 h16
    have hcond : ¬ (days < 1 ∨ days > 16) := by omega
    cases net with
    | ok status body =>
        by_cases hst : 400 ≤ status
        · simp [WeatherApp.get_daily_forecast, hcond, httpGet, hst]
        · cases hd : body.daily <;>
            simp [WeatherApp.get_daily_forecast, hcond, httpGet, hst, hd]
    | connFail => simp [WeatherApp.get_daily_forecast, hcond, httpGet]
    | timeoutFail => simp [WeatherApp.get_daily_forecast, hcond, httpGet]

/-- C2 witness: rejection at 0 and 17 with no network call, and a
network call issued at 1 and 16. -/
theorem get_daily_forecast_param_check_witness :
    WeatherApp.get_daily_forecast 0 0 0 (NetResult.ok 200 ⟨none⟩) =
      (.error (.valueError "Forecast days must be between 1 and 16."),
       false) ∧
    WeatherApp.get_daily_forecast 0 0 17 (NetResult.ok 200 ⟨none⟩) =
      (.error (.valueError "Forecast days must be between 1 and 16."),
       false) ∧
    (WeatherApp.get_daily_forecast 0 0 1 (NetResult.ok 200 ⟨none⟩)).2 =
      true ∧
    (WeatherApp.get_daily_forecast 0 0 16 (NetResult.ok 200 ⟨none⟩)).2 =
      true :=
  ⟨(get_daily_forecast_param_check 0 0 0 _).1 (by decide),
   (get_daily_forecast_param_check 0 0 17 _).1 (by decide),
   ((get_daily_forecast_param_check 0 0 1 _).2 (by decide)
     (by decide)).1,
   ((get_daily_forecast_param_check 0 0 16 _).2 (by decide)
     (by decide)).1⟩

/-- A string contains itself. -/
theorem strContains_self (s : String) : strContains s s :=
  List.infix_rfl

/-- Containment persists when text is appended on the right. -/
theorem strContains_append_l (s t pat : String)
    (h : strContains s pat) : strContains (s ++ t) pat := by
  unfold strContains at h ⊢
  rw [String.data_append]
  exact h.trans (List.IsPrefix.isInfix (List.prefix_append s.data t.data))

/-- Containment persists when text is prepended on the left. -/
theorem strContains_append_r (s t pat : String)
    (h : strContains t pat) : strContains (s ++ t) pat := by
  unfold strContains at h ⊢
  rw [String.data_append]
  exact h.trans (List.IsSuffix.isInfix (List.suffix_append s.data t.data))

/-- A right-padded string contains the original string. -/
theorem strContains_padRight (s : String) (w : Nat) :
    strContains (padRight s w) s := by
  unfold padRight
  exact strContains_append_l _ _ _ (strContains_self s)

/-- The `i`-th per-day forecast line, for `i` in range of the `time`
array. -/
theorem forecastLines_getD (daily : Daily) (i : Nat)
    (h : i < (daily.time.getD []).length) :
    (WeatherApp.forecastLines daily).getD i "" =
      (daily.time.getD []).getD i "" ++ " | " ++
      padRight
        (WeatherApp.describe_code
          ((daily.weathercode.getD []).getD i 0)) 28 ++ " | " ++
      "min " ++
      padLeft (fmtFixed 1 ((daily.temperature_2m_min.getD []).getD i 0))
        5 ++
      "°C  max " ++
      padLeft (fmtFixed 1 ((daily.temperature_2m_max.getD []).getD i 0))
        5 ++
      "°C  " ++
      "prec " ++
      padLeft (fmtFixed 1 ((daily.precipitation_sum.getD []).getD i 0))
        4 ++
      " mm  wind " ++
      padLeft (fmtFixed 0 ((daily.windspeed_10m_max.getD []).getD i 0))
        4 ++
      " km/h dir " ++
      padLeft
        (toString ((daily.winddirection_10m_dominant.getD []).getD i 0))
        3 ++
      "°" := by
  have hlen : i < (WeatherApp.forecastLines daily).length := by
    simpa [WeatherApp.forecastLines] using h
  rw [List.getD_eq_getElem _ _ hlen]
  simp [WeatherApp.forecastLines, List.getElem_map, List.getElem_range]

/-- C4: the forecast renderer iterates by the index range of the first
(`time`) array; when all seven per-day arrays have length `N`, it
produces exactly `N` per-day lines (after the two header lines), each
containing the day's date, the day's condition description, and the
literal substrings `"min"` and `"max"`. -/
theorem print_forecast_spec (daily : Daily) :
    (WeatherApp.forecastLines daily).length =
      (daily.time.getD []).length ∧
    ∀ N ts cs xs ns ps ws ds,
      daily = ⟨some ts, some cs, some xs, some ns, some ps, some ws,
               some ds⟩ →
      ts.length = N → cs.length = N → xs.length = N → ns.length = N →
      ps.length = N → ws.length = N → ds.length = N →
      (WeatherApp.forecastLines daily).length = N ∧
      (WeatherApp.print_forecast daily).length = 2 + N ∧
      ∀ i, i < N →
        strContains ((WeatherApp.forecastLines daily).getD i "")
          (ts.getD i "") ∧
        strContains ((WeatherApp.forecastLines daily).getD i "")
          (WeatherApp.describe_code (cs.getD i 0)) ∧
        strContains ((WeatherApp.forecastLines daily).getD i "")
          "min" ∧
        strContains ((WeatherApp.forecastLines daily).getD i "")
          "max" := by
  constructor
  · simp [WeatherApp.forecastLines]
  · intro N ts cs xs ns ps ws ds hdaily hts hcs hxs hns hps hws hds
    subst hdaily
    have hlen : (WeatherApp.forecastLines
        ⟨some ts, some cs, some xs, some ns, some ps, some ws,
         some ds⟩).length = N := by
      simp [WeatherApp.forecastLines, hts]
    refine ⟨hlen, ?_, ?_⟩
    · simp [WeatherApp.print_forecast, hlen]
      omega
    · intro i hi
      have hline := forecastLines_getD
        ⟨some ts, some cs, some xs, some ns, some ps, some ws, some ds⟩
        i (by simpa [hts] using hi)
      rw [hline]
      simp only [Option.getD_some]
      refine ⟨?_, ?_, ?_, ?_⟩
      · iterate 15 apply strContains_append_l
        exact strContains_self _
      · iterate 13 apply strContains_append_l
        apply strContains_append_r
        exact strContains_padRight _ 28
      · iterate 11 apply strContains_append_l
        apply strContains_append_r
        unfold strContains
        decide
      · iterate 9 apply strContains_append_l
        apply strContains_append_r
        unfold strContains
        decide

/-- C4 witness: the theorem applied to a concrete 2-day forecast. -/
theorem print_forecast_spec_witness :
    (WeatherApp.forecastLines
      ⟨some ["2024-01-01", "2024-01-02"], some [3, 61],
       some [5, 6], some [1, 2], some [0, 1], some [10, 12],
       some [180, 90]⟩).length = 2 ∧
    strContains
      ((WeatherApp.forecastLines
        ⟨some ["2024-01-01", "2024-01-02"], some [3, 61],
         some [5, 6], some [1, 2], some [0, 1], some [10, 12],
         some [180, 90]⟩).getD 0 "") "min" :=
  ⟨((print_forecast_spec _).2 2 ["2024-01-01", "2024-01-02"] [3, 61]
      [5, 6] [1, 2] [0, 1] [10, 12] [180, 90] rfl rfl rfl rfl rfl rfl
      rfl rfl).1,
   (((print_forecast_spec _).2 2 ["2024-01-01", "2024-01-02"] [3, 61]
      [5, 6] [1, 2] [0, 1] [10, 12] [180, 90] rfl rfl rfl rfl rfl rfl
      rfl rfl).2.2 0 (by decide)).2.2.1⟩

/-- C9: `print_current` never fails on missing keys: a missing
`weathercode` defaults to `-999`, rendering the condition as the
fallback `"Code -999"`, and a missing `temperature` or `windspeed`
renders as the `None` placeholder. -/
theorem print_current_defaults (label : String) (lat lon : Rat)
    (cw : CurrentWeather) :
    (cw.weathercode = none →
      (WeatherApp.print_current label lat lon cw).getD 6 "" =
        "Condition  : Code -999") ∧
    (cw.temperature = none →
      (WeatherApp.print_current label lat lon cw).getD 4 "" =
        "Temperature: None °C") ∧
    (cw.windspeed = none →
      (WeatherApp.print_current label lat lon cw).getD 5 "" =
        "Windspeed  : None km/h") := by
  refine ⟨?_, ?_, ?_⟩ <;> intro h <;>
    · simp only [WeatherApp.print_current, h]
      rfl

/-- C9 witness: the theorem applied to the empty current-weather
dictionary. -/
theorem print_current_defaults_witness :
    (WeatherApp.print_current "X" 0 0 ⟨none, none, none⟩).getD 6 "" =
      "Condition  : Code -999" ∧
    (WeatherApp.print_current "X" 0 0 ⟨none, none, none⟩).getD 4 "" =
      "Temperature: None °C" ∧
    (WeatherApp.print_current "X" 0 0 ⟨none, none, none⟩).getD 5 "" =
      "Windspeed  : None km/h" :=
  ⟨(print_current_defaults "X" 0 0 ⟨none, none, none⟩).1 rfl,
   (print_current_defaults "X" 0 0 ⟨none, none, none⟩).2.1 rfl,
   (print_current_defaults "X" 0 0 ⟨none, none, none⟩).2.2 rfl⟩

/-- A string whose first component is non-empty is non-empty. -/
theorem append_ne_empty_left (s t : String) (h : s.data ≠ []) :
    s ++ t ≠ "" := by
  intro he
  have hd : (s ++ t).data = ([] : List Char) := by
    rw [he]
  rw [String.data_append] at hd
  exact h (List.append_eq_nil.mp hd).1

/-- Every `except` clause prints exactly one non-blank line. -/
theorem handleError_one_nonblank (e : PyError) :
    ((handleError e).filter (fun l => l ≠ "")).length = 1 := by
  cases e with
  | httpError s =>
      have h : ("HTTP error from API: " ++ toString s) ≠ "" :=
        append_ne_empty_left _ _ (by decide)
      simp [handleError, h]
  | connectionError => decide
  | timeoutError => decide
  | valueError m =>
      have h : ("Error: " ++ m) ≠ "" :=
        append_ne_empty_left _ _ (by decide)
      simp [handleError, h]
  | keyboardInterrupt => decide
  | unexpected m =>
      have h : ("Unexpected error: " ++ m) ≠ "" :=
        append_ne_empty_left _ _ (by decide)
      simp [handleError, h]

/-- C6: every failure escaping the resolve/fetch/render steps is
caught and converted into a diagnostic with exactly one non-blank,
category-labeled line appended after the output already produced (the
session's whole output is described — no stack trace), and an HTTP
error status (in particular 500) on the geocoding endpoint surfaces
as the `HTTPError`-category line. -/
theorem main_error_handling (inp : Inputs) (city : String)
    (days : Int) :
    (∀ ls cf ff e,
      sessionBody inp city days = (ls, cf, ff, some e) →
      sessionRun inp city days = (ls ++ handleError e, cf, ff) ∧
      ((handleError e).filter (fun l => l ≠ "")).length = 1) ∧
    (∀ status body, 400 ≤ status → inp.geoNet = .ok status body →
      sessionBody inp city days =
        ([], false, false, some (.httpError status)) ∧
      handleError (.httpError status) =
        ["HTTP error from API: " ++ toString status]) := by
  constructor
  · intro ls cf ff e h
    exact ⟨by simp [sessionRun, h], handleError_one_nonblank e⟩
  · intro status body hst hnet
    constructor
    · simp [sessionBody, WeatherApp.geocode_city, httpGet, hnet, hst,
        Bind.bind, Except.bind]
    · rfl

/-- C6 witness: an HTTP 500 on the geocoding endpoint yields exactly
the one-line `HTTPError` diagnostic. -/
theorem main_error_handling_witness :
    sessionRun ⟨some "Brno", "", some 3, [], .ok 500 ⟨none⟩,
      .ok 200 ⟨none⟩, .ok 200 ⟨none⟩⟩ "Brno" 3 =
      (["HTTP error from API: 500"], false, false) := by
  have h2 := (main_error_handling ⟨some "Brno", "", some 3, [],
    .ok 500 ⟨none⟩, .ok 200 ⟨none⟩, .ok 200 ⟨none⟩⟩ "Brno" 3).2 500
    ⟨none⟩ (by decide) rfl
  have h1 := (main_error_handling ⟨some "Brno", "", some 3, [],
    .ok 500 ⟨none⟩, .ok 200 ⟨none⟩, .ok 200 ⟨none⟩⟩ "Brno" 3).1 []
    false false (.httpError 500) h2.1
  simpa [handleError] using h1.1

/-- The forecast-request flag survives exception conversion. -/
theorem sessionRun_forecast_flag (inp : Inputs) (city : String)
    (days : Int) :
    (sessionRun inp city days).2.2 =
      (sessionBody inp city days).2.2.1 := by
  rcases h : sessionBody inp city days with ⟨ls, cf, ff, e?⟩
  cases e? <;> simp [sessionRun, h]

/-- C7: with an acquired day count of 0 the forecast step is skipped
entirely — no forecast HTTP request is issued, at the session level
unconditionally and at the `main` level for a CLI count of 0 — while
current conditions are fetched and rendered (when the preceding steps
succeed); with a positive day count the forecast is fetched and its
rendering appended. -/
theorem forecast_skip_spec (inp : Inputs) (city : String) :
    (sessionBody inp city 0).2.2.1 = false ∧
    (inp.forecastArg = some 0 →
      (Orchestrator.main inp).forecastFetched = false) ∧
    (∀ lat lon resolved cc cw,
      WeatherApp.geocode_city city inp.geoNet =
        .ok (lat, lon, resolved, cc) →
      WeatherApp.get_current_weather lat lon inp.currentNet =
        .ok cw →
      sessionBody inp city 0 =
        (WeatherApp.print_current (cityLabel resolved cc) lat lon cw,
         true, false, none)) ∧
    (∀ days lat lon resolved cc cw daily, (0 : Int) < days →
      WeatherApp.geocode_city city inp.geoNet =
        .ok (lat, lon, resolved, cc) →
      WeatherApp.get_current_weather lat lon inp.currentNet =
        .ok cw →
      WeatherApp.get_daily_forecast lat lon days inp.forecastNet =
        (.ok daily, true) →
      sessionBody inp city days =
        (WeatherApp.print_current (cityLabel resolved cc) lat lon cw ++
           WeatherApp.print_forecast daily, true, true, none)) := by
  have hskip : ∀ c : String, (sessionBody inp c 0).2.2.1 = false := by
    intro c
    rcases hg : WeatherApp.geocode_city c inp.geoNet with e | v
    · simp [sessionBody, hg]
    · rcases v with ⟨lat, lon, resolved, cc⟩
      rcases hc : WeatherApp.get_current_weather lat lon inp.currentNet
        with e | cw
      · simp [sessionBody, hg, hc]
      · simp [sessionBody, hg, hc]
  refine ⟨hskip city, ?_, ?_, ?_⟩
  · intro hfa
    unfold Orchestrator.main
    by_cases hca : optStrTruthy inp.cityArg
    · rcases hsr : sessionRun inp (pyStrip (inp.cityArg.getD "")) 0
        with ⟨out, cf, ff⟩
      have : ff = false := by
        have h1 := sessionRun_forecast_flag inp
          (pyStrip (inp.cityArg.getD "")) 0
        rw [hsr] at h1
        rw [hskip (pyStrip (inp.cityArg.getD ""))] at h1
        exact h1
      subst this
      simp [hca, acquireDays, hfa, hsr]
    · by_cases hpc : (pyStrip inp.promptCity) = ""
      · simp [hca, hpc]
      · rcases hsr : sessionRun inp (pyStrip inp.promptCity) 0
          with ⟨out, cf, ff⟩
        have : ff = false := by
          have h1 := sessionRun_forecast_flag inp (pyStrip inp.promptCity) 0
          rw [hsr] at h1
          rw [hskip (pyStrip inp.promptCity)] at h1
          exact h1
        subst this
        simp [hca, hpc, acquireDays, hfa, hsr]
  · intro lat lon resolved cc cw hg hc
    simp [sessionBody, hg, hc]
  · intro days lat lon resolved cc cw daily hd hg hc hf
    simp [sessionBody, hg, hc, hd, hf]

/-- C7 witness: a successful session with a CLI day count of 0 issues
no forecast request and renders the current block; the same session
body with 2 days appends the forecast rendering. -/
theorem forecast_skip_spec_witness :
    (Orchestrator.main ⟨some "Brno", "", some 0, [],
      .ok 200 ⟨some [⟨49, 16, some "Brno", none, some "CZ"⟩]⟩,
      .ok 200 ⟨some ⟨some 10, some 5, some 3⟩⟩,
      .ok 200 ⟨some ⟨some ["d1", "d2"], some [3, 61], some [5, 6],
        some [1, 2], some [0, 1], some [10, 12],
        some [180, 90]⟩⟩⟩).forecastFetched = false ∧
    (sessionBody ⟨some "Brno", "", some 0, [],
      .ok 200 ⟨some [⟨49, 16, some "Brno", none, some "CZ"⟩]⟩,
      .ok 200 ⟨some ⟨some 10, some 5, some 3⟩⟩,
      .ok 200 ⟨some ⟨some ["d1", "d2"], some [3, 61], some [5, 6],
        some [1, 2], some [0, 1], some [10, 12],
        some [180, 90]⟩⟩⟩ "Brno" 2).2.2.1 = true := by
  constructor
  · exact (forecast_skip_spec _ "Brno").2.1 rfl
  · have h := (forecast_skip_spec ⟨some "Brno", "", some 0, [],
      .ok 200 ⟨some [⟨49, 16, some "Brno", none, some "CZ"⟩]⟩,
      .ok 200 ⟨some ⟨some 10, some 5, some 3⟩⟩,
      .ok 200 ⟨some ⟨some ["d1", "d2"], some [3, 61], some [5, 6],
        some [1, 2], some [0, 1], some [10, 12],
        some [180, 90]⟩⟩⟩ "Brno").2.2.2 2 49 16 "Brno" (some "CZ")
      ⟨some 10, some 5, some 3⟩
      ⟨some ["d1", "d2"], some [3, 61], some [5, 6], some [1, 2],
       some [0, 1], some [10, 12], some [180, 90]⟩
      (by decide) rfl rfl rfl
    rw [h]

/-- One unfolding step of the interactive day loop. -/
theorem ask_cons (s : String) (rest : List String) :
    ask_forecast_days_interactively (s :: rest) =
      match pyInt (if pyStrip s = "" then "0" else pyStrip s) with
      | some d =>
          if 0 ≤ d ∧ d ≤ 16 then ([], some d)
          else
            ("Please enter an integer between 0 and 16." ::
               (ask_forecast_days_interactively rest).1,
             (ask_forecast_days_interactively rest).2)
      | none =>
          ("Please enter an integer between 0 and 16." ::
             (ask_forecast_days_interactively rest).1,
           (ask_forecast_days_interactively rest).2) := rfl

/-- Any value the interactive day loop returns lies in `[0, 16]`. -/
theorem ask_days_bounds (inputs : List String) :
    ∀ ls d, ask_forecast_days_interactively inputs = (ls, some d) →
      0 ≤ d ∧ d ≤ 16 := by
  induction inputs with
  | nil =>
      intro ls d h
      simp [ask_forecast_days_interactively] at h
  | cons s rest ih =>
      intro ls d h
      rw [ask_cons] at h
      cases hp : pyInt (if pyStrip s = "" then "0" else pyStrip s) with
      | some v =>
          rw [hp] at h
          by_cases hr : 0 ≤ v ∧ v ≤ 16
          · simp only [if_pos hr, Prod.mk.injEq] at h
            obtain ⟨-, h2⟩ := h
            obtain rfl : v = d := by injection h2
            exact hr
          · simp only [if_neg hr, Prod.mk.injEq] at h
            obtain ⟨-, h2⟩ := h
            exact ih _ d (Prod.ext rfl h2)
      | none =>
          rw [hp] at h
          simp only [Prod.mk.injEq] at h
          obtain ⟨-, h2⟩ := h
          exact ih _ d (Prod.ext rfl h2)

/-- C8: the interactive day prompt only ever returns a value in
`[0, 16]`; an empty prompt input yields the default `0`; a
non-integer or out-of-range input prints the warning line and the
loop continues on the remaining inputs; a CLI day count outside
`[0, 16]` prints the error message and the session ends (no network
step runs). -/
theorem forecast_days_acquisition_spec :
    (∀ inputs ls d,
      ask_forecast_days_interactively inputs = (ls, some d) →
      0 ≤ d ∧ d ≤ 16) ∧
    (∀ rest, ask_forecast_days_interactively ("" :: rest) =
      ([], some 0)) ∧
    (∀ s rest,
      (∀ d, pyInt (if pyStrip s = "" then "0" else pyStrip s) = some d →
        ¬ (0 ≤ d ∧ d ≤ 16)) →
      ask_forecast_days_interactively (s :: rest) =
        ("Please enter an integer between 0 and 16." ::
           (ask_forecast_days_interactively rest).1,
         (ask_forecast_days_interactively rest).2)) ∧
    (∀ (inp : Inputs) (n : Int), inp.forecastArg = some n →
      ¬ (0 ≤ n ∧ n ≤ 16) → optStrTruthy inp.cityArg = true →
      Orchestrator.main inp =
        ⟨["Error: --forecast must be between 0 and 16."], false,
         false⟩) := by
  refine ⟨fun inputs => ask_days_bounds inputs, ?_, ?_, ?_⟩
  · intro rest
    rw [ask_cons]
    rw [show pyInt (if pyStrip "" = "" then "0" else pyStrip "") =
      some 0 from by decide]
    exact if_pos (by decide)
  · intro s rest h
    rw [ask_cons]
    cases hp : pyInt (if pyStrip s = "" then "0" else pyStrip s) with
    | some v => exact if_neg (h v hp)
    | none => rfl
  · intro inp n hfa hnr hca
    unfold Orchestrator.main
    simp [hca, acquireDays, hfa, hnr]

/-- C8 witness: the theorem applied to a valid scripted input, the
empty default, an out-of-range retry, and a rejected CLI value. -/
theorem forecast_days_acquisition_spec_witness :
    ((0 : Int) ≤ 7 ∧ (7 : Int) ≤ 16) ∧
    ask_forecast_days_interactively [""] = ([], some 0) ∧
    ask_forecast_days_interactively ["99", "3"] =
      (["Please enter an integer between 0 and 16."], some 3) ∧
    Orchestrator.main ⟨some "Brno", "", some 17, [],
        .ok 200 ⟨none⟩, .ok 200 ⟨none⟩, .ok 200 ⟨none⟩⟩ =
      ⟨["Error: --forecast must be between 0 and 16."], false,
       false⟩ := by
  refine ⟨?_, ?_, ?_, ?_⟩
  · exact forecast_days_acquisition_spec.1 ["7"] [] 7 (by decide)
  · exact forecast_days_acquisition_spec.2.1 []
  · have h := forecast_days_acquisition_spec.2.2.1 "99" ["3"]
      (by
        intro d hd
        rw [show pyInt (if pyStrip "99" = "" then "0" else pyStrip "99")
            = some 99 from by decide] at hd
        obtain rfl : (99 : Int) = d := by injection hd
        decide)
    rw [h]
    decide
  · exact forecast_days_acquisition_spec.2.2.2 _ 17 rfl (by decide)
      rfl

/-- C10: the orchestrator's location label equals
`"{resolved} ({cc})"` exactly when a non-empty country code was
returned, and the bare resolved name when the code is absent or
empty; `print_current` renders this label on its `Location` line. -/
theorem city_label_spec (resolved : String) (cc : Option String) :
    (∀ c, cc = some c → c ≠ "" →
      cityLabel resolved cc = resolved ++ " (" ++ c ++ ")") ∧
    ((cc = none ∨ cc = some "") → cityLabel resolved cc = resolved) ∧
    (∀ lat lon cw,
      (WeatherApp.print_current (cityLabel resolved cc) lat lon
        cw).getD 2 "" = "Location   : " ++ cityLabel resolved cc) := by
  refine ⟨?_, ?_, ?_⟩
  · intro c hc hne
    subst hc
    simp [cityLabel, optStrTruthy, hne]
  · rintro (h | h) <;> subst h <;> simp [cityLabel, optStrTruthy]
  · intro lat lon cw
    rfl

/-- C10 witness: the theorem applied with country code `"CZ"` and with
no country code. -/
theorem city_label_spec_witness :
    cityLabel "Brno" (some "CZ") = "Brno (CZ)" ∧
    cityLabel "Brno" none = "Brno" := by
  constructor
  · have h := (city_label_spec "Brno" (some "CZ")).1 "CZ" rfl
      (by decide)
    exact h
  · exact (city_label_spec "Brno" none).2.1 (Or.inl rfl)
